import Mathlib

/-!
Verification development for the k8s-schedule-simulator core.

Shallow embedding of the repository's Go sources:
* `clustersnapshot.InitializeClusterSnapshotOrDie` (initialization of a
  cluster snapshot from node and pod lists),
* `scheduling.SimilarPodsScheduling` (the equivalence / negative cache:
  `Match`, `PodSpecSemanticallyEqual`, `sanitizePodSpec`,
  `dropProjectedVolumesAndMounts`, `dropHostname`, `IsSimilarUnschedulable`,
  `SetUnschedulable`, `OverflowingControllerCount`).

Go maps are embedded as association lists (lookup with a default, in-place
update); Go `reflect.DeepEqual` / `apiequality.Semantic.DeepEqual` on the
embedded record types is structural equality of the corresponding Lean
values.  A separate heap-based embedding (`sanitizePodSpecGo`) models Go's
slice-header copy semantics, which the pure value embedding cannot express,
in order to settle the frame claim about sanitization.
-/

namespace K8sSim

/-- A volume mount of a container: its referenced volume name, plus the
remaining fields (mount path, read-only flag, ...) abstracted into one
opaque component. -/
structure VolumeMount where
  name : String
  other : String
deriving DecidableEq, Repr

/-- A pod volume: its name, the projected-volume source (`none` embeds Go's
`v.Projected == nil`; `some payload` a present projected source), and the
remaining volume-source fields abstracted into one opaque component. -/
structure Volume where
  name : String
  projected : Option String
  other : String
deriving DecidableEq, Repr

/-- A container: its volume mounts plus the remaining fields (image,
resources, ...) abstracted into one opaque component. -/
structure Container where
  volumeMounts : List VolumeMount
  other : String
deriving DecidableEq, Repr

/-- A pod specification (`apiv1.PodSpec`): the fields the embedded code
reads or writes (`NodeName`, `Hostname`, `Volumes`, `Containers`,
`InitContainers`), the rest abstracted into one opaque component. -/
structure PodSpec where
  nodeName : String
  hostname : String
  volumes : List Volume
  containers : List Container
  initContainers : List Container
  other : String
deriving DecidableEq, Repr

/-- An owning-controller reference: the controller's UID and kind. -/
structure OwnerRef where
  uid : String
  kind : String
deriving DecidableEq, Repr

/-- A pod: labels, spec, the status field `NominatedNodeName`, and the
resolved owning-controller reference.  Labels embed the Go
`map[string]string`; `controllerRef` embeds the result of
`drain.ControllerRef(pod)` (the owner reference marked as controller, or
nil), whose implementation is not under src/ and which the spec describes
as resolving "the workload's owning-controller identity". -/
structure Pod where
  name : String
  labels : List (String × String)
  spec : PodSpec
  nominatedNodeName : String
  controllerRef : Option OwnerRef
deriving DecidableEq, Repr

/-- Modelled from the spec: `pod_utils.IsDaemonSetPod` is not under src/;
per the spec, daemon-set workloads are the ones owned by a DaemonSet
controller, so the test is that the owning-controller reference has kind
DaemonSet. -/
def IsDaemonSetPod (pod : Pod) : Bool :=
  match pod.controllerRef with
  | some r => r.kind = "DaemonSet"
  | none => false

/-- `scheduling.SimilarPodsSchedulingInfo`: a stored equivalence-class
signature, the (spec, labels) pair of a pod found unschedulable. -/
structure SimilarPodsSchedulingInfo where
  spec : PodSpec
  labels : List (String × String)
deriving DecidableEq, Repr

/-- `scheduling.dropProjectedVolumesAndMounts`: removes every volume whose
projected source is present, and from every container and init container
every volume mount whose name is the name of such a projected volume. -/
def dropProjectedVolumesAndMounts (podSpec : PodSpec) : PodSpec :=
  let projectedVolumeNames := (podSpec.volumes.filter (fun v => v.projected.isSome)).map (·.name)
  let volumes := podSpec.volumes.filter (fun v => v.projected.isNone)
  let sanitizeContainer := fun (c : Container) =>
    { c with volumeMounts :=
        c.volumeMounts.filter (fun m => ¬ projectedVolumeNames.contains m.name) }
  { podSpec with
    volumes := volumes
    containers := podSpec.containers.map sanitizeContainer
    initContainers := podSpec.initContainers.map sanitizeContainer }

/-- `scheduling.dropHostname`: clears the pod-local hostname override. -/
def dropHostname (podSpec : PodSpec) : PodSpec :=
  { podSpec with hostname := "" }

/-- `scheduling.sanitizePodSpec`: drop projected volumes and their mounts,
then drop the hostname (value semantics of the returned spec). -/
def sanitizePodSpec (podSpec : PodSpec) : PodSpec :=
  dropHostname (dropProjectedVolumesAndMounts podSpec)

/-- `scheduling.PodSpecSemanticallyEqual`: sanitize both specs and compare
them (semantic deep equality embeds as structural equality of the embedded
record values). -/
def PodSpecSemanticallyEqual (p1 p2 : PodSpec) : Bool :=
  sanitizePodSpec p1 = sanitizePodSpec p2

/-- `SimilarPodsSchedulingInfo.Match`: the pod's label map equals the
stored labels (deep equality) and its spec is semantically equal to the
stored spec. -/
def SimilarPodsSchedulingInfo.Match (psi : SimilarPodsSchedulingInfo) (pod : Pod) : Bool :=
  pod.labels = psi.labels && PodSpecSemanticallyEqual pod.spec psi.spec

/-- `scheduling.maxPodsPerOwnerRef`. -/
def maxPodsPerOwnerRef : Nat := 10

/-- Lookup in the embedded Go map `items`; a missing key yields the nil
slice, embedded as the empty list. -/
def lookupItems (m : List (String × List SimilarPodsSchedulingInfo)) (k : String) :
    List SimilarPodsSchedulingInfo :=
  match m with
  | [] => []
  | (k', v) :: rest => if k' = k then v else lookupItems rest k

/-- Store into the embedded Go map `items`: replace the entry for the key
if present, otherwise add one. -/
def insertItems (m : List (String × List SimilarPodsSchedulingInfo)) (k : String)
    (v : List SimilarPodsSchedulingInfo) : List (String × List SimilarPodsSchedulingInfo) :=
  match m with
  | [] => [(k, v)]
  | (k', v') :: rest => if k' = k then (k, v) :: rest else (k', v') :: insertItems rest k v

/-- Insert into the embedded Go set `overflowingControllers`
(`map[string]bool`): setting a key already present changes nothing. -/
def insertOverflow (l : List String) (u : String) : List String :=
  if u ∈ l then l else l ++ [u]

/-- `scheduling.SimilarPodsScheduling`: controller UID to the list of
stored signatures, plus the set of overflowing controller UIDs. -/
structure SimilarPodsScheduling where
  items : List (String × List SimilarPodsSchedulingInfo)
  overflowingControllers : List String
deriving DecidableEq, Repr

/-- `scheduling.NewSimilarPodsScheduling`: both maps empty. -/
def NewSimilarPodsScheduling : SimilarPodsScheduling :=
  { items := [], overflowingControllers := [] }

/-- `SimilarPodsScheduling.IsSimilarUnschedulable`: false when the pod has
no controller reference; otherwise scan the controller's stored signatures
for one that matches the pod. -/
def SimilarPodsScheduling.IsSimilarUnschedulable (p : SimilarPodsScheduling) (pod : Pod) : Bool :=
  match pod.controllerRef with
  | none => false
  | some ref => (lookupItems p.items ref.uid).any (fun info => info.Match pod)

/-- `SimilarPodsScheduling.SetUnschedulable`: no-op when the pod has no
controller reference or is a daemon-set pod; when the controller already
has `maxPodsPerOwnerRef` stored signatures, mark it overflowing and store
nothing; otherwise append the pod's (spec, labels) signature. -/
def SimilarPodsScheduling.SetUnschedulable (p : SimilarPodsScheduling) (pod : Pod) :
    SimilarPodsScheduling :=
  match pod.controllerRef with
  | none => p
  | some ref =>
    if IsDaemonSetPod pod then p
    else
      let uid := ref.uid
      let pm := lookupItems p.items uid
      if maxPodsPerOwnerRef ≤ pm.length then
        { p with overflowingControllers := insertOverflow p.overflowingControllers uid }
      else
        { p with items := insertItems p.items uid (pm ++ [⟨pod.spec, pod.labels⟩]) }

/-- `SimilarPodsScheduling.OverflowingControllerCount`: the size of the
overflowing-controllers set. -/
def SimilarPodsScheduling.OverflowingControllerCount (p : SimilarPodsScheduling) : Nat :=
  p.overflowingControllers.length

/-- A node record: only the identity is read by the embedded code. -/
structure Node where
  name : String
  other : String
deriving DecidableEq, Repr

/-- Error conditions of the snapshot operations, named as in the spec. -/
inductive SnapErr where
  | DuplicateNode
  | UnknownNode
deriving DecidableEq, Repr

/-- The cluster snapshot: node name to the ordered list of pods bound to
that node.  The concrete `BasicClusterSnapshot` implementation is not under
src/; its state is modelled from the spec's data model ("a mapping from
node name to (node, ordered set of workloads currently bound to it)"),
keeping only the node identity. -/
structure ClusterSnapshot where
  nodes : List (String × List Pod)
deriving DecidableEq, Repr

/-- Modelled from the spec: `Clear()` resets the snapshot to the empty
state, with no error condition. -/
def ClusterSnapshot.Clear (_s : ClusterSnapshot) : ClusterSnapshot :=
  { nodes := [] }

/-- Whether a node of the given name is registered in the snapshot. -/
def ClusterSnapshot.hasNode (s : ClusterSnapshot) (name : String) : Bool :=
  s.nodes.any (fun kv => kv.1 = name)

/-- Modelled from the spec: `AddNode(node)` registers a node with no bound
workloads and fails with a DuplicateNode condition if the name already
exists (a failed call leaves the snapshot unchanged). -/
def ClusterSnapshot.AddNode (s : ClusterSnapshot) (node : Node) :
    Except SnapErr ClusterSnapshot :=
  if s.hasNode node.name then .error .DuplicateNode
  else .ok { nodes := s.nodes ++ [(node.name, [])] }

/-- Modelled from the spec: `AddPod(pod, nodeName)` binds a workload to a
named node and fails with UnknownNode if the node is absent (a failed call
leaves the snapshot unchanged). -/
def ClusterSnapshot.AddPod (s : ClusterSnapshot) (pod : Pod) (nodeName : String) :
    Except SnapErr ClusterSnapshot :=
  if s.hasNode nodeName then
    .ok { nodes := s.nodes.map (fun kv => if kv.1 = nodeName then (kv.1, kv.2 ++ [pod]) else kv) }
  else .error .UnknownNode

/-- Lookup of a node's bound-pod list in the snapshot mapping. -/
def lookupPods : List (String × List Pod) → String → List Pod
  | [], _ => []
  | (k, v) :: rest, name => if k = name then v else lookupPods rest name

/-- Read accessor: the pods currently bound to the named node. -/
def ClusterSnapshot.boundPods (s : ClusterSnapshot) (name : String) : List Pod :=
  lookupPods s.nodes name

/-- One Go statement `err = snapshot.Op(...)`: on success the snapshot is
replaced and `err` becomes nil; on failure the snapshot is unchanged and
`err` holds the error.  Control flow continues either way. -/
def applySnapshotOp (s : ClusterSnapshot) (r : Except SnapErr ClusterSnapshot) :
    ClusterSnapshot × Option SnapErr :=
  match r with
  | .ok s' => (s', none)
  | .error e => (s, some e)

/-- The node loop of `InitializeClusterSnapshotOrDie`: `err =
snapshot.AddNode(node)` for each node in order, with the error assigned
but never checked. -/
def addNodesLoop : ClusterSnapshot → Option SnapErr → List Node →
    ClusterSnapshot × Option SnapErr
  | s, err, [] => (s, err)
  | s, _, n :: rest =>
    let r := applySnapshotOp s (s.AddNode n)
    addNodesLoop r.1 r.2 rest

/-- The pod loop of `InitializeClusterSnapshotOrDie`: bind each pod to
`pod.Spec.NodeName` when non-empty, else to
`pod.Status.NominatedNodeName` when non-empty (the `err` of the `AddPod`
call is assigned but never checked), else `panic(err)` — embedded as an
`Except.error` carrying the current (possibly nil) `err` value, which
aborts the remaining iterations. -/
def addPodsLoop : ClusterSnapshot → Option SnapErr → List Pod →
    Except (Option SnapErr) (ClusterSnapshot × Option SnapErr)
  | s, err, [] => .ok (s, err)
  | s, err, pod :: rest =>
    if pod.spec.nodeName ≠ "" then
      let r := applySnapshotOp s (s.AddPod pod pod.spec.nodeName)
      addPodsLoop r.1 r.2 rest
    else if pod.nominatedNodeName ≠ "" then
      let r := applySnapshotOp s (s.AddPod pod pod.nominatedNodeName)
      addPodsLoop r.1 r.2 rest
    else
      .error err

/-- `clustersnapshot.InitializeClusterSnapshotOrDie`: clear the snapshot,
run the node loop, then the pod loop; `.error` is the embedded panic,
`.ok` the final snapshot of a run that completed. -/
def InitializeClusterSnapshotOrDie (snapshot : ClusterSnapshot) (nodes : List Node)
    (pods : List Pod) : Except (Option SnapErr) ClusterSnapshot :=
  let r := addNodesLoop snapshot.Clear none nodes
  (addPodsLoop r.1 r.2 pods).map (·.1)

/-- Whether an initialization run aborted (the embedded `panic`). -/
def isPanic : Except (Option SnapErr) ClusterSnapshot → Bool
  | .error _ => true
  | .ok _ => false

/-!
Go slice-header embedding of `sanitizePodSpec`, for the frame (mutation)
analysis.  In Go, `sanitizePodSpec(podSpec apiv1.PodSpec)` receives the
struct by value: scalar fields and the slice HEADERS are copied, but a
slice header still points into the caller's backing array.  Writing
`podSpec.Volumes = volumes` replaces the copy's header (caller unaffected),
while `podSpec.Containers[i].VolumeMounts = volumeMounts` writes through
the shared backing array of `Containers`, which the caller's original pod
record also points to.  The heap below holds the container backing arrays;
a `GoPodSpec` carries references into it for `Containers` and
`InitContainers`.  `Volumes` is kept by value because the Go code never
writes through an element of the volumes array, so sharing there is
unobservable. -/

/-- The heap of container backing arrays, indexed by reference. -/
abbrev ContainerHeap := List (List Container)

/-- Read a container backing array from the heap. -/
def heapRead (h : ContainerHeap) (r : Nat) : List Container :=
  h.getD r []

/-- Overwrite a container backing array in the heap. -/
def heapWrite (h : ContainerHeap) (r : Nat) (v : List Container) : ContainerHeap :=
  h.set r v

/-- A pod spec as a Go struct value: `containersRef` and
`initContainersRef` are the slice headers of `Containers` and
`InitContainers`, pointing into the shared heap. -/
structure GoPodSpec where
  nodeName : String
  hostname : String
  volumes : List Volume
  containersRef : Nat
  initContainersRef : Nat
  other : String
deriving DecidableEq, Repr

/-- `dropProjectedVolumesAndMounts` under Go semantics: the volumes filter
replaces the local header only, but the per-container mount filters are
element writes through the shared backing arrays, so they update the
heap. -/
def dropProjectedVolumesAndMountsGo (h : ContainerHeap) (podSpec : GoPodSpec) :
    ContainerHeap × GoPodSpec :=
  let projectedVolumeNames := (podSpec.volumes.filter (fun v => v.projected.isSome)).map (·.name)
  let podSpec' := { podSpec with volumes := podSpec.volumes.filter (fun v => v.projected.isNone) }
  let filterMounts := fun (c : Container) =>
    { c with volumeMounts :=
        c.volumeMounts.filter (fun m => ¬ projectedVolumeNames.contains m.name) }
  let h1 := heapWrite h podSpec'.containersRef
    ((heapRead h podSpec'.containersRef).map filterMounts)
  let h2 := heapWrite h1 podSpec'.initContainersRef
    ((heapRead h1 podSpec'.initContainersRef).map filterMounts)
  (h2, podSpec')

/-- `dropHostname` under Go semantics: writes a scalar field of the local
copy; the heap is untouched. -/
def dropHostnameGo (podSpec : GoPodSpec) : GoPodSpec :=
  { podSpec with hostname := "" }

/-- `sanitizePodSpec` under Go semantics: the argument struct is a copy of
the caller's spec whose container slice headers alias the caller's backing
arrays; the function returns the sanitized copy together with the heap as
it stands after the element writes. -/
def sanitizePodSpecGo (h : ContainerHeap) (podSpec : GoPodSpec) :
    ContainerHeap × GoPodSpec :=
  let (h1, s1) := dropProjectedVolumesAndMountsGo h podSpec
  (h1, dropHostnameGo s1)

/-!
Derived run and specification devices.
-/

/-- The cache produced by a sequence of `SetUnschedulable` calls on a
freshly created `SimilarPodsScheduling`, in order. -/
def runSetUnschedulable (ps : List Pod) : SimilarPodsScheduling :=
  ps.foldl SimilarPodsScheduling.SetUnschedulable NewSimilarPodsScheduling

/-- The cache produced by the guarded discipline the simulator follows:
`SetUnschedulable` is invoked only on pods for which
`IsSimilarUnschedulable` currently returns false. -/
def runGuardedSetUnschedulable (ps : List Pod) : SimilarPodsScheduling :=
  ps.foldl
    (fun c q => if c.IsSimilarUnschedulable q then c else c.SetUnschedulable q)
    NewSimilarPodsScheduling

/-- Two stored signatures are equivalent when they would match the same
pods: equal label maps and equal sanitized specs. -/
def InfoEquiv (a b : SimilarPodsSchedulingInfo) : Prop :=
  a.labels = b.labels ∧ sanitizePodSpec a.spec = sanitizePodSpec b.spec

/-- The controller UIDs for which the overflow branch of
`SetUnschedulable` fires during a sequence of calls starting from cache
`c`, in order of firing (with multiplicity). -/
def overflowMarks : SimilarPodsScheduling → List Pod → List String
  | _, [] => []
  | c, q :: ps =>
    (match q.controllerRef with
     | some ref =>
       if IsDaemonSetPod q then []
       else if maxPodsPerOwnerRef ≤ (lookupItems c.items ref.uid).length then [ref.uid]
       else []
     | none => []) ++ overflowMarks (c.SetUnschedulable q) ps

/-- The spec's binding-target rule, stated from the spec's words: an
already-running workload is bound "to its explicit node assignment if
present, otherwise to its nominated node if present". -/
def initTargetSpec (pod : Pod) : Option String :=
  if pod.spec.nodeName ≠ "" then some pod.spec.nodeName
  else if pod.nominatedNodeName ≠ "" then some pod.nominatedNodeName
  else none

/-!
Concrete records used by the closed theorems and witnesses.
-/

/-- A volume mount named `n`. -/
def exMount (n : String) : VolumeMount := ⟨n, "m"⟩

/-- A projected volume named `n`. -/
def exProjVol (n : String) : Volume := ⟨n, some "proj", ""⟩

/-- A plain (non-projected) volume named `n`. -/
def exPlainVol (n : String) : Volume := ⟨n, none, ""⟩

/-- A spec with a projected volume `pv`, a plain volume `dv`, a container
mounting both, and hostname `h1`. -/
def exSpecA : PodSpec :=
  { nodeName := "", hostname := "h1", volumes := [exProjVol "pv", exPlainVol "dv"],
    containers := [⟨[exMount "pv", exMount "dv"], "c"⟩], initContainers := [], other := "o" }

/-- `exSpecA` minus the projected volume, the mount referencing it, and
with a different hostname `h2` — it differs from `exSpecA` only in the
fields sanitization erases. -/
def exSpecB : PodSpec :=
  { nodeName := "", hostname := "h2", volumes := [exPlainVol "dv"],
    containers := [⟨[exMount "dv"], "c"⟩], initContainers := [], other := "o" }

/-- A minimal pod spec. -/
def exSpecPlain : PodSpec :=
  { nodeName := "", hostname := "", volumes := [], containers := [], initContainers := [],
    other := "" }

/-- A pod owned by a ReplicaSet controller with UID `u`. -/
def exPodRS : Pod := ⟨"p1", [("a", "b")], exSpecB, "", some ⟨"u", "ReplicaSet"⟩⟩

/-- A daemon-set pod whose controller also has UID `u`, with the same
labels and spec as `exPodRS`. -/
def exPodDS : Pod := ⟨"p2", [("a", "b")], exSpecB, "", some ⟨"u", "DaemonSet"⟩⟩

/-- A pod with labels and spec differing from `exSpecA` only in the
sanitized fields, owned by the same controller UID `u`. -/
def exPodB : Pod := ⟨"pB", [("app", "x")], exSpecB, "", some ⟨"u", "ReplicaSet"⟩⟩

/-- A pod with no owning-controller reference. -/
def exPodNoRef : Pod := ⟨"p0", [], exSpecPlain, "", none⟩

/-- A stored signature whose labels mark it as the `i`-th distinct class
of controller `u`. -/
def exInfo (i : Nat) : SimilarPodsSchedulingInfo :=
  ⟨exSpecPlain, [("i", toString i)]⟩

/-- A cache whose controller `u` already holds `maxPodsPerOwnerRef` (10)
stored signatures. -/
def exCacheFull : SimilarPodsScheduling :=
  { items := [("u", (List.range maxPodsPerOwnerRef).map exInfo)], overflowingControllers := [] }

/-- `exCacheFull` with controller `u` already marked overflowing. -/
def exCacheOverflowing : SimilarPodsScheduling :=
  { items := [("u", (List.range maxPodsPerOwnerRef).map exInfo)],
    overflowingControllers := ["u"] }

/-- A pod of controller `u` whose signature matches none of the `exInfo`
signatures. -/
def exPodFresh : Pod := ⟨"pf", [("fresh", "yes")], exSpecPlain, "", some ⟨"u", "ReplicaSet"⟩⟩

/-- Node records used by the initialization theorems. -/
def exNodeA : Node := ⟨"a", ""⟩

/-- A second node record. -/
def exNodeB : Node := ⟨"b", ""⟩

/-- A duplicate registration of node `a` (same name, different payload). -/
def exNodeADup : Node := ⟨"a", "x"⟩

/-- A pod explicitly assigned to node `b`. -/
def exPodToB : Pod := ⟨"pb", [], { exSpecPlain with nodeName := "b" }, "", none⟩

/-- A pod with both an explicit assignment (`b`) and a nomination (`c`). -/
def exPodBoth : Pod := ⟨"pboth", [], { exSpecPlain with nodeName := "b" }, "c", none⟩

/-- A pod with neither an explicit assignment nor a nomination. -/
def exPodNoTarget : Pod := ⟨"pe", [], exSpecPlain, "", none⟩

/-- A snapshot already containing empty nodes `b` and `c`. -/
def exSnapBC : ClusterSnapshot := ⟨[("b", []), ("c", [])]⟩

/-- The heap holding the backing arrays of `exGoSpec`'s containers (cell
0) and init containers (cell 1) before sanitization. -/
def exHeap : ContainerHeap := [[⟨[exMount "pv", exMount "dv"], "c"⟩], []]

/-- The Go struct value of `exSpecA` with its container arrays stored in
`exHeap`. -/
def exGoSpec : GoPodSpec :=
  ⟨"", "h1", [exProjVol "pv", exPlainVol "dv"], 0, 1, "o"⟩

/-!
Helper lemmas.
-/

/-- Looking up the key just stored returns the stored value. -/
lemma lookupItems_insertItems_self (m : List (String × List SimilarPodsSchedulingInfo))
    (k : String) (v : List SimilarPodsSchedulingInfo) :
    lookupItems (insertItems m k v) k = v := by
  induction m with
  | nil => simp [insertItems, lookupItems]
  | cons kv rest ih =>
    by_cases h : kv.1 = k
    · simp [insertItems, lookupItems, h]
    · simpa [insertItems, lookupItems, h] using ih

/-- Storing under one key leaves lookups of other keys unchanged. -/
lemma lookupItems_insertItems_ne (m : List (String × List SimilarPodsSchedulingInfo))
    (k k' : String) (v : List SimilarPodsSchedulingInfo) (hne : k' ≠ k) :
    lookupItems (insertItems m k v) k' = lookupItems m k' := by
  have hne' : ¬ (k = k') := fun hh => hne hh.symm
  induction m with
  | nil => simp [insertItems, lookupItems, hne']
  | cons kv rest ih =>
    by_cases h : kv.1 = k
    · simp [insertItems, lookupItems, h, hne']
    · by_cases h' : kv.1 = k'
      · simp [insertItems, lookupItems, h, h', hne]
      · simpa [insertItems, lookupItems, h, h'] using ih

/-- Membership in the overflow set after an insertion. -/
lemma mem_insertOverflow (l : List String) (u v : String) :
    v ∈ insertOverflow l u ↔ v ∈ l ∨ v = u := by
  unfold insertOverflow
  by_cases h : u ∈ l
  · simp only [h, if_pos]
    constructor
    · exact Or.inl
    · rintro (hv | rfl)
      · exact hv
      · exact h
  · simp [h]

/-- Inserting into a duplicate-free overflow set keeps it
duplicate-free. -/
lemma nodup_insertOverflow (l : List String) (u : String) (h : l.Nodup) :
    (insertOverflow l u).Nodup := by
  unfold insertOverflow
  by_cases hc : u ∈ l
  · simpa [hc] using h
  · simp only [hc, if_neg, not_false_iff]
    exact List.nodup_append.mpr ⟨h, List.nodup_singleton u, by simpa using hc⟩

/-- The freshly inserted UID is in the overflow set. -/
lemma mem_insertOverflow_self (l : List String) (u : String) :
    u ∈ insertOverflow l u :=
  (mem_insertOverflow l u u).mpr (Or.inr rfl)

/-- A stored signature matches a pod exactly when the pod's labels equal
the stored labels and the sanitized specs coincide. -/
lemma match_eq_true_iff (psi : SimilarPodsSchedulingInfo) (pod : Pod) :
    psi.Match pod = true ↔
      (pod.labels = psi.labels ∧ sanitizePodSpec pod.spec = sanitizePodSpec psi.spec) := by
  simp [SimilarPodsSchedulingInfo.Match, PodSpecSemanticallyEqual]

/-- `SetUnschedulable` is the identity on pods without a controller
reference. -/
lemma setUnschedulable_noref (c : SimilarPodsScheduling) (pod : Pod)
    (h : pod.controllerRef = none) : c.SetUnschedulable pod = c := by
  simp [SimilarPodsScheduling.SetUnschedulable, h]

/-- `SetUnschedulable` is the identity on daemon-set pods. -/
lemma setUnschedulable_ds (c : SimilarPodsScheduling) (pod : Pod)
    (h : IsDaemonSetPod pod = true) : c.SetUnschedulable pod = c := by
  unfold SimilarPodsScheduling.SetUnschedulable
  cases href : pod.controllerRef with
  | none => rfl
  | some ref => simp [h]

/-- The overflow branch of `SetUnschedulable`: at or past the cap, the
items map is untouched and the UID goes into the overflow set. -/
lemma setUnschedulable_overflow (c : SimilarPodsScheduling) (pod : Pod) (ref : OwnerRef)
    (href : pod.controllerRef = some ref) (hds : IsDaemonSetPod pod = false)
    (hlen : maxPodsPerOwnerRef ≤ (lookupItems c.items ref.uid).length) :
    c.SetUnschedulable pod =
      { c with overflowingControllers := insertOverflow c.overflowingControllers ref.uid } := by
  simp [SimilarPodsScheduling.SetUnschedulable, href, hds, hlen]

/-- The store branch of `SetUnschedulable`: below the cap, the pod's
signature is appended to its controller's list and the overflow set is
untouched. -/
lemma setUnschedulable_store (c : SimilarPodsScheduling) (pod : Pod) (ref : OwnerRef)
    (href : pod.controllerRef = some ref) (hds : IsDaemonSetPod pod = false)
    (hlen : (lookupItems c.items ref.uid).length < maxPodsPerOwnerRef) :
    c.SetUnschedulable pod =
      { c with items := (insertItems c.items ref.uid
          (lookupItems c.items ref.uid ++ [⟨pod.spec, pod.labels⟩])) } := by
  simp [SimilarPodsScheduling.SetUnschedulable, href, hds, Nat.not_le.mpr hlen]

/-- `IsSimilarUnschedulable` is false on pods without a controller
reference. -/
lemma isSimilar_noref (c : SimilarPodsScheduling) (pod : Pod)
    (h : pod.controllerRef = none) : c.IsSimilarUnschedulable pod = false := by
  simp [SimilarPodsScheduling.IsSimilarUnschedulable, h]

/-- `IsSimilarUnschedulable` on a pod with a controller reference is the
scan of that controller's stored signatures. -/
lemma isSimilar_some (c : SimilarPodsScheduling) (pod : Pod) (ref : OwnerRef)
    (h : pod.controllerRef = some ref) :
    c.IsSimilarUnschedulable pod =
      (lookupItems c.items ref.uid).any (fun info => info.Match pod) := by
  simp [SimilarPodsScheduling.IsSimilarUnschedulable, h]

/-- A controller UID whose pods are all daemon-set pods never acquires a
stored signature during a run. -/
lemma lookup_run_empty (ps : List Pod) (c : SimilarPodsScheduling) (u : String)
    (hc : lookupItems c.items u = [])
    (hds : ∀ q ∈ ps, ∀ r : OwnerRef, q.controllerRef = some r → r.uid = u →
      IsDaemonSetPod q = true) :
    lookupItems (ps.foldl SimilarPodsScheduling.SetUnschedulable c).items u = [] := by
  induction ps generalizing c with
  | nil => simpa using hc
  | cons q ps ih =>
    simp only [List.foldl_cons]
    refine ih (c.SetUnschedulable q) ?_ ?_
    · cases href : q.controllerRef with
      | none => rw [setUnschedulable_noref c q href]; exact hc
      | some r =>
        by_cases hd : IsDaemonSetPod q = true
        · rw [setUnschedulable_ds c q hd]; exact hc
        · have hd' : IsDaemonSetPod q = false := by
            simpa using hd
          have hru : r.uid ≠ u := by
            intro he
            exact hd (hds q (List.mem_cons_self q ps) r href he)
          by_cases hlen : maxPodsPerOwnerRef ≤ (lookupItems c.items r.uid).length
          · rw [setUnschedulable_overflow c q r href hd' hlen]; exact hc
          · rw [setUnschedulable_store c q r href hd' (Nat.not_le.mp hlen)]
            rw [lookupItems_insertItems_ne _ _ _ _ (Ne.symm hru)]
            exact hc
    · intro q' hq' r href hru
      exact hds q' (List.mem_cons_of_mem q hq') r href hru

/-- One `SetUnschedulable` call keeps every controller's stored list at or
below the cap. -/
lemma length_le_cap_step (c : SimilarPodsScheduling) (pod : Pod) (u : String)
    (h : (lookupItems c.items u).length ≤ maxPodsPerOwnerRef) :
    (lookupItems (c.SetUnschedulable pod).items u).length ≤ maxPodsPerOwnerRef := by
  cases href : pod.controllerRef with
  | none => rw [setUnschedulable_noref c pod href]; exact h
  | some r =>
    by_cases hd : IsDaemonSetPod pod = true
    · rw [setUnschedulable_ds c pod hd]; exact h
    · have hd' : IsDaemonSetPod pod = false := by simpa using hd
      by_cases hlen : maxPodsPerOwnerRef ≤ (lookupItems c.items r.uid).length
      · rw [setUnschedulable_overflow c pod r href hd' hlen]; exact h
      · rw [setUnschedulable_store c pod r href hd' (Nat.not_le.mp hlen)]
        by_cases hu : u = r.uid
        · subst hu
          rw [lookupItems_insertItems_self]
          have := Nat.not_le.mp hlen
          simpa using this
        · rw [lookupItems_insertItems_ne _ _ _ _ hu]; exact h

/-- One guarded step (skip when the pod is already reported similar)
preserves pairwise inequivalence of every controller's stored list. -/
lemma guarded_pairwise_step (c : SimilarPodsScheduling) (pod : Pod)
    (h : ∀ u, (lookupItems c.items u).Pairwise fun a b => ¬ InfoEquiv a b) (u : String) :
    (lookupItems
        (if c.IsSimilarUnschedulable pod then c else c.SetUnschedulable pod).items u).Pairwise
      fun a b => ¬ InfoEquiv a b := by
  by_cases hsim : c.IsSimilarUnschedulable pod = true
  · simpa [hsim] using h u
  · have hsim' : c.IsSimilarUnschedulable pod = false := by simpa using hsim
    rw [if_neg (by simp [hsim'])]
    cases href : pod.controllerRef with
    | none => rw [setUnschedulable_noref c pod href]; exact h u
    | some r =>
      by_cases hd : IsDaemonSetPod pod = true
      · rw [setUnschedulable_ds c pod hd]; exact h u
      · have hd' : IsDaemonSetPod pod = false := by simpa using hd
        by_cases hlen : maxPodsPerOwnerRef ≤ (lookupItems c.items r.uid).length
        · rw [setUnschedulable_overflow c pod r href hd' hlen]; exact h u
        · rw [setUnschedulable_store c pod r href hd' (Nat.not_le.mp hlen)]
          by_cases hu : u = r.uid
          · subst hu
            rw [lookupItems_insertItems_self]
            have hall : ∀ info ∈ lookupItems c.items r.uid, ¬ info.Match pod = true := by
              have := (isSimilar_some c pod r href).symm.trans hsim'
              exact List.any_eq_false.mp this
            refine List.pairwise_append.mpr ⟨h r.uid, List.pairwise_singleton _ _, ?_⟩
            intro a ha b hb
            have hb' : b = ⟨pod.spec, pod.labels⟩ := List.mem_singleton.mp hb
            subst hb'
            intro hequiv
            exact hall a ha ((match_eq_true_iff a pod).mpr ⟨hequiv.1.symm, hequiv.2.symm⟩)
          · rw [lookupItems_insertItems_ne _ _ _ _ hu]; exact h u

/-- Run form of `guarded_pairwise_step`: from any cache whose stored lists
are pairwise inequivalent, a guarded run keeps them so. -/
lemma guarded_pairwise_run (ps : List Pod) (c : SimilarPodsScheduling)
    (h : ∀ u, (lookupItems c.items u).Pairwise fun a b => ¬ InfoEquiv a b) (u : String) :
    (lookupItems
        (ps.foldl (fun c q => if c.IsSimilarUnschedulable q then c else c.SetUnschedulable q)
          c).items u).Pairwise fun a b => ¬ InfoEquiv a b := by
  induction ps generalizing c with
  | nil => simpa using h u
  | cons q ps ih =>
    simp only [List.foldl_cons]
    exact ih _ (fun v => guarded_pairwise_step c q h v)

/-- The overflow set after a run: it stays duplicate-free and holds
exactly the initial UIDs plus the UIDs marked during the run. -/
lemma overflow_run (ps : List Pod) (c : SimilarPodsScheduling)
    (h : c.overflowingControllers.Nodup) :
    (ps.foldl SimilarPodsScheduling.SetUnschedulable c).overflowingControllers.Nodup ∧
    ∀ u, u ∈ (ps.foldl SimilarPodsScheduling.SetUnschedulable c).overflowingControllers ↔
      u ∈ c.overflowingControllers ∨ u ∈ overflowMarks c ps := by
  induction ps generalizing c with
  | nil => simpa [overflowMarks] using h
  | cons q ps ih =>
    simp only [List.foldl_cons]
    cases href : q.controllerRef with
    | none =>
      simp only [overflowMarks, href, setUnschedulable_noref c q href, List.nil_append]
      exact ih c h
    | some r =>
      by_cases hd : IsDaemonSetPod q = true
      · simp only [overflowMarks, href, hd, if_pos, setUnschedulable_ds c q hd,
          List.nil_append]
        exact ih c h
      · have hd' : IsDaemonSetPod q = false := by simpa using hd
        by_cases hlen : maxPodsPerOwnerRef ≤ (lookupItems c.items r.uid).length
        · rw [setUnschedulable_overflow c q r href hd' hlen]
          have hn : (insertOverflow c.overflowingControllers r.uid).Nodup :=
            nodup_insertOverflow _ _ h
          obtain ⟨ihn, ihm⟩ :=
            ih { c with overflowingControllers := insertOverflow c.overflowingControllers r.uid }
              hn
          refine ⟨ihn, ?_⟩
          intro u
          rw [ihm u]
          have hset : c.SetUnschedulable q =
              { c with overflowingControllers := insertOverflow c.overflowingControllers r.uid } :=
            setUnschedulable_overflow c q r href hd' hlen
          simp only [overflowMarks, href, hd', hlen, if_pos, if_neg, Bool.false_eq_true,
            not_false_iff, hset]
          rw [mem_insertOverflow]
          constructor
          · rintro ((hu | rfl) | hm)
            · exact Or.inl hu
            · exact Or.inr (by simp)
            · exact Or.inr (by simp [hm])
          · rintro (hu | hm)
            · exact Or.inl (Or.inl hu)
            · rcases List.mem_append.mp hm with hm1 | hm2
              · exact Or.inl (Or.inr (List.mem_singleton.mp hm1))
              · exact Or.inr hm2
        · have hset : c.SetUnschedulable q =
              { c with items := (insertItems c.items r.uid
                (lookupItems c.items r.uid ++ [⟨q.spec, q.labels⟩])) } :=
            setUnschedulable_store c q r href hd' (Nat.not_le.mp hlen)
          rw [hset]
          obtain ⟨ihn, ihm⟩ :=
            ih { c with items := (insertItems c.items r.uid
              (lookupItems c.items r.uid ++ [⟨q.spec, q.labels⟩])) } h
          refine ⟨ihn, ?_⟩
          intro u
          rw [ihm u]
          simp [overflowMarks, href, hd', hlen, hset]

/-- If some pod in the list has neither an explicit assignment nor a
nomination, the pod loop aborts. -/
lemma addPodsLoop_error_of_mem (pods : List Pod) :
    ∀ (s : ClusterSnapshot) (err : Option SnapErr) (p : Pod),
      p ∈ pods → p.spec.nodeName = "" → p.nominatedNodeName = "" →
      ∃ e, addPodsLoop s err pods = .error e := by
  induction pods with
  | nil =>
    intro s err p hp
    exact absurd hp (List.not_mem_nil p)
  | cons q rest ih =>
    intro s err p hp hn hm
    by_cases h1 : q.spec.nodeName = ""
    · by_cases h2 : q.nominatedNodeName = ""
      · exact ⟨err, by simp [addPodsLoop, h1, h2]⟩
      · rcases List.mem_cons.mp hp with rfl | hp'
        · exact absurd hm h2
        · have step : addPodsLoop s err (q :: rest) =
              addPodsLoop (applySnapshotOp s (s.AddPod q q.nominatedNodeName)).1
                (applySnapshotOp s (s.AddPod q q.nominatedNodeName)).2 rest := by
            simp [addPodsLoop, h1, h2]
          rw [step]
          exact ih _ _ p hp' hn hm
    · rcases List.mem_cons.mp hp with rfl | hp'
      · exact absurd hn h1
      · have step : addPodsLoop s err (q :: rest) =
            addPodsLoop (applySnapshotOp s (s.AddPod q q.spec.nodeName)).1
              (applySnapshotOp s (s.AddPod q q.spec.nodeName)).2 rest := by
          simp [addPodsLoop, h1]
        rw [step]
        exact ih _ _ p hp' hn hm

/-- After a successful `AddPod`, the pod is in the target node's
bound-pod list. -/
lemma mem_lookupPods_bind (nodes : List (String × List Pod)) (pod : Pod) (t : String)
    (h : nodes.any (fun kv => kv.1 = t) = true) :
    pod ∈ lookupPods (nodes.map (fun kv => if kv.1 = t then (kv.1, kv.2 ++ [pod]) else kv)) t := by
  induction nodes with
  | nil => simp at h
  | cons kv rest ih =>
    simp only [List.map_cons]
    by_cases hk : kv.1 = t
    · rw [if_pos hk]
      simp only [lookupPods]
      rw [if_pos hk]
      simp
    · rw [if_neg hk]
      have h' : rest.any (fun kv => kv.1 = t) = true := by
        simpa [List.any_cons, hk] using h
      simp only [lookupPods]
      rw [if_neg hk]
      exact ih h'

/-- Run form of `length_le_cap_step`. -/
lemma length_le_cap_run (ps : List Pod) (c : SimilarPodsScheduling)
    (h : ∀ v, (lookupItems c.items v).length ≤ maxPodsPerOwnerRef) (u : String) :
    (lookupItems (ps.foldl SimilarPodsScheduling.SetUnschedulable c).items u).length ≤
      maxPodsPerOwnerRef := by
  induction ps generalizing c with
  | nil => simpa using h u
  | cons q ps ih =>
    simp only [List.foldl_cons]
    exact ih _ (fun v => length_le_cap_step c q v (h v))

/-- A successful `AddPod` makes the pod visible in the target node's bound
set. -/
lemma mem_boundPods_addPod (s : ClusterSnapshot) (pod : Pod) (t : String)
    (h : s.hasNode t = true) :
    pod ∈ (applySnapshotOp s (s.AddPod pod t)).1.boundPods t := by
  unfold ClusterSnapshot.AddPod
  rw [if_pos h]
  simp only [applySnapshotOp]
  unfold ClusterSnapshot.boundPods
  exact mem_lookupPods_bind s.nodes pod t (by simpa [ClusterSnapshot.hasNode] using h)

/-!
Claim theorems.
-/

/-- C1: the claim says a fatal configuration error from `AddNode`
(duplicate node) or `AddPod` aborts `InitializeClusterSnapshotOrDie`.  The
code assigns the error but never checks it: here the third `AddNode` fails
with DuplicateNode, yet initialization continues, processes the pod list,
and returns the completed snapshot instead of aborting. -/
theorem C1_init_continues_after_duplicate_node_error :
    ClusterSnapshot.AddNode ⟨[("a", []), ("b", [])]⟩ exNodeADup = .error .DuplicateNode ∧
    InitializeClusterSnapshotOrDie ⟨[]⟩ [exNodeA, exNodeB, exNodeADup] [exPodToB] =
      .ok ⟨[("a", []), ("b", [exPodToB])]⟩ := by
  exact ⟨rfl, rfl⟩

/-- C2: `Match` returns true exactly when the label maps are equal and the
sanitized specifications are equal; in particular a pod differing from a
stored signature only in projected volumes, volume mounts referencing
them, and the hostname is judged equivalent. -/
theorem C2_match_iff_labels_and_sanitized_spec_eq :
    (∀ (psi : SimilarPodsSchedulingInfo) (pod : Pod),
      psi.Match pod = true ↔
        (pod.labels = psi.labels ∧ sanitizePodSpec pod.spec = sanitizePodSpec psi.spec)) ∧
    SimilarPodsSchedulingInfo.Match ⟨exSpecA, [("app", "x")]⟩ exPodB = true := by
  refine ⟨match_eq_true_iff, ?_⟩
  decide

/-- C3: at the cap, `SetUnschedulable` stores nothing and marks the
controller overflowing; and `IsSimilarUnschedulable` is false for any pod
none of whose controller's stored signatures match it (no false
positive). -/
theorem C3_overflow_at_cap_and_no_false_positive :
    (∀ (c : SimilarPodsScheduling) (pod : Pod) (ref : OwnerRef),
      pod.controllerRef = some ref → IsDaemonSetPod pod = false →
      (lookupItems c.items ref.uid).length = maxPodsPerOwnerRef →
      (c.SetUnschedulable pod).items = c.items ∧
        ref.uid ∈ (c.SetUnschedulable pod).overflowingControllers) ∧
    (∀ (c : SimilarPodsScheduling) (pod : Pod) (ref : OwnerRef),
      pod.controllerRef = some ref →
      (∀ info ∈ lookupItems c.items ref.uid, info.Match pod = false) →
      c.IsSimilarUnschedulable pod = false) := by
  constructor
  · intro c pod ref href hds hlen
    rw [setUnschedulable_overflow c pod ref href hds hlen.ge]
    exact ⟨rfl, mem_insertOverflow_self _ _⟩
  · intro c pod ref href hall
    rw [isSimilar_some c pod ref href]
    exact List.any_eq_false.mpr (fun info hi => by simp [hall info hi])

/-- Witness for C3 at a cache whose controller `u` holds 10 signatures and
a fresh pod matching none of them. -/
theorem C3_overflow_at_cap_and_no_false_positive_witness :
    ((exCacheFull.SetUnschedulable exPodFresh).items = exCacheFull.items ∧
      "u" ∈ (exCacheFull.SetUnschedulable exPodFresh).overflowingControllers) ∧
    exCacheFull.IsSimilarUnschedulable exPodFresh = false := by
  constructor
  · exact C3_overflow_at_cap_and_no_false_positive.1 exCacheFull exPodFresh
      ⟨"u", "ReplicaSet"⟩ rfl (by decide) (by decide)
  · exact C3_overflow_at_cap_and_no_false_positive.2 exCacheFull exPodFresh
      ⟨"u", "ReplicaSet"⟩ rfl (by decide)

/-- C4 counterexample: the claim's lookup half is false.  A daemon-set pod
with a controller reference is looked up like any other pod: after a
(reachable) run that stored a signature of a non-daemon-set pod under the
same controller UID, `IsSimilarUnschedulable` for the daemon-set pod
returns true, not false. -/
theorem C4_daemonset_lookup_counterexample :
    IsDaemonSetPod exPodDS = true ∧
    (runSetUnschedulable [exPodRS]).IsSimilarUnschedulable exPodDS = true := by
  exact ⟨rfl, by decide⟩

/-- C4 amended: `SetUnschedulable` never changes the cache for daemon-set
pods or pods without a controller reference; `IsSimilarUnschedulable` is
always false for pods without a controller reference; for a pod with one
it is false whenever its controller has no stored signature — in
particular, in every run whose pods with that controller UID are all
daemon-set pods, that UID never acquires stored signatures. -/
theorem C4_never_written_and_lookup_policy :
    (∀ (c : SimilarPodsScheduling) (pod : Pod),
      pod.controllerRef = none ∨ IsDaemonSetPod pod = true → c.SetUnschedulable pod = c) ∧
    (∀ (c : SimilarPodsScheduling) (pod : Pod),
      pod.controllerRef = none → c.IsSimilarUnschedulable pod = false) ∧
    (∀ (c : SimilarPodsScheduling) (pod : Pod) (ref : OwnerRef),
      pod.controllerRef = some ref → lookupItems c.items ref.uid = [] →
      c.IsSimilarUnschedulable pod = false) ∧
    (∀ (ps : List Pod) (u : String),
      (∀ q ∈ ps, ∀ r : OwnerRef, q.controllerRef = some r → r.uid = u →
        IsDaemonSetPod q = true) →
      lookupItems (runSetUnschedulable ps).items u = []) := by
  refine ⟨?_, ?_, ?_, ?_⟩
  · rintro c pod (h | h)
    · exact setUnschedulable_noref c pod h
    · exact setUnschedulable_ds c pod h
  · exact isSimilar_noref
  · intro c pod ref href hempty
    rw [isSimilar_some c pod ref href, hempty]
    rfl
  · intro ps u hds
    exact lookup_run_empty ps NewSimilarPodsScheduling u rfl hds

/-- Witness for the amended C4. -/
theorem C4_never_written_and_lookup_policy_witness :
    NewSimilarPodsScheduling.SetUnschedulable exPodNoRef = NewSimilarPodsScheduling ∧
    NewSimilarPodsScheduling.IsSimilarUnschedulable exPodNoRef = false ∧
    NewSimilarPodsScheduling.IsSimilarUnschedulable exPodRS = false ∧
    lookupItems (runSetUnschedulable [exPodDS]).items "u" = [] := by
  refine ⟨?_, ?_, ?_, ?_⟩
  · exact C4_never_written_and_lookup_policy.1 NewSimilarPodsScheduling exPodNoRef (Or.inl rfl)
  · exact C4_never_written_and_lookup_policy.2.1 NewSimilarPodsScheduling exPodNoRef rfl
  · exact C4_never_written_and_lookup_policy.2.2.1 NewSimilarPodsScheduling exPodRS
      ⟨"u", "ReplicaSet"⟩ rfl rfl
  · refine C4_never_written_and_lookup_policy.2.2.2 [exPodDS] "u" ?_
    intro q hq r href hru
    rw [List.mem_singleton] at hq
    subst hq
    have hr : r = ⟨"u", "DaemonSet"⟩ := by
      have : some (⟨"u", "DaemonSet"⟩ : OwnerRef) = some r := href
      exact (Option.some.inj this).symm
    subst hr
    rfl

/-- C5: a pod with neither an explicit node assignment nor a nominated
node makes `InitializeClusterSnapshotOrDie` abort (panic), never silently
skipping it. -/
theorem C5_init_aborts_on_pod_without_target :
    ∀ (snapshot : ClusterSnapshot) (nodes : List Node) (pods : List Pod) (p : Pod),
      p ∈ pods → p.spec.nodeName = "" → p.nominatedNodeName = "" →
      isPanic (InitializeClusterSnapshotOrDie snapshot nodes pods) = true := by
  intro snapshot nodes pods p hp hn hm
  obtain ⟨e, he⟩ := addPodsLoop_error_of_mem pods
    (addNodesLoop snapshot.Clear none nodes).1
    (addNodesLoop snapshot.Clear none nodes).2 p hp hn hm
  simp [InitializeClusterSnapshotOrDie, he, isPanic, Except.map]

/-- Witness for C5. -/
theorem C5_init_aborts_on_pod_without_target_witness :
    isPanic (InitializeClusterSnapshotOrDie ⟨[]⟩ [exNodeA] [exPodNoTarget]) = true :=
  C5_init_aborts_on_pod_without_target ⟨[]⟩ [exNodeA] [exPodNoTarget] exPodNoTarget
    (List.mem_singleton.mpr rfl) rfl rfl

/-- C6: the pod loop binds each pod to the target the spec prescribes —
the explicit assignment when non-empty, else the nomination — and a
successful bind makes the pod visible in that node's bound set. -/
theorem C6_explicit_assignment_precedes_nomination :
    ∀ (s : ClusterSnapshot) (err : Option SnapErr) (pod : Pod) (rest : List Pod)
      (target : String),
      initTargetSpec pod = some target →
      (addPodsLoop s err (pod :: rest) =
        addPodsLoop (applySnapshotOp s (s.AddPod pod target)).1
          (applySnapshotOp s (s.AddPod pod target)).2 rest) ∧
      (s.hasNode target = true →
        pod ∈ (applySnapshotOp s (s.AddPod pod target)).1.boundPods target) := by
  intro s err pod rest target htgt
  by_cases h1 : pod.spec.nodeName = ""
  · by_cases h2 : pod.nominatedNodeName = ""
    · simp [initTargetSpec, h1, h2] at htgt
    · have ht : target = pod.nominatedNodeName := by
        simp [initTargetSpec, h1, h2] at htgt
        exact htgt.symm
      subst ht
      refine ⟨by simp [addPodsLoop, h1, h2], ?_⟩
      intro hn
      exact mem_boundPods_addPod s pod _ hn
  · have ht : target = pod.spec.nodeName := by
      simp [initTargetSpec, h1] at htgt
      exact htgt.symm
    subst ht
    refine ⟨by simp [addPodsLoop, h1], ?_⟩
    intro hn
    exact mem_boundPods_addPod s pod _ hn

/-- Witness for C6 at a pod carrying both an assignment (`b`) and a
nomination (`c`): the explicit assignment wins. -/
theorem C6_explicit_assignment_precedes_nomination_witness :
    (addPodsLoop exSnapBC none [exPodBoth] =
      addPodsLoop (applySnapshotOp exSnapBC (exSnapBC.AddPod exPodBoth "b")).1
        (applySnapshotOp exSnapBC (exSnapBC.AddPod exPodBoth "b")).2 []) ∧
    exPodBoth ∈ (applySnapshotOp exSnapBC (exSnapBC.AddPod exPodBoth "b")).1.boundPods "b" := by
  have h := C6_explicit_assignment_precedes_nomination exSnapBC none exPodBoth [] "b" (by decide)
  exact ⟨h.1, h.2 (by decide)⟩

/-- C7 counterexample: distinctness of stored signatures fails.  Two
unguarded `SetUnschedulable` calls with the same pod are a reachable
sequence, after which controller `u` stores two signatures that both match
the pod they were built from. -/
theorem C7_duplicate_signatures_counterexample :
    (lookupItems (runSetUnschedulable [exPodRS, exPodRS]).items "u").length = 2 ∧
    (lookupItems (runSetUnschedulable [exPodRS, exPodRS]).items "u").all
      (fun info => info.Match exPodRS) = true := by
  exact ⟨rfl, by decide⟩

/-- C7 amended: in every state reachable by `SetUnschedulable` calls each
controller's list has length at most the cap (10); pairwise distinctness
of the stored signatures holds under the guarded discipline the simulator
uses (store only pods not currently reported similar), not for arbitrary
call sequences. -/
theorem C7_cap_invariant_and_guarded_distinctness :
    (∀ (ps : List Pod) (u : String),
      (lookupItems (runSetUnschedulable ps).items u).length ≤ maxPodsPerOwnerRef) ∧
    (∀ (ps : List Pod) (u : String),
      (lookupItems (runGuardedSetUnschedulable ps).items u).Pairwise
        fun a b => ¬ InfoEquiv a b) := by
  constructor
  · intro ps u
    exact length_le_cap_run ps NewSimilarPodsScheduling
      (fun v => by simp [NewSimilarPodsScheduling, lookupItems]) u
  · intro ps u
    exact guarded_pairwise_run ps NewSimilarPodsScheduling
      (fun v => by simp [NewSimilarPodsScheduling, lookupItems]) u

/-- C8: the claim says sanitization operates on copies and leaves the
original record unchanged.  Under Go's slice-header copy semantics the
per-container mount filter writes through the shared backing array: after
`sanitizePodSpecGo`, the caller's original containers have lost the mount
referencing the projected volume. -/
theorem C8_sanitize_mutates_original_containers :
    heapRead exHeap 0 = [⟨[exMount "pv", exMount "dv"], "c"⟩] ∧
    heapRead (sanitizePodSpecGo exHeap exGoSpec).1 0 = [⟨[exMount "dv"], "c"⟩] ∧
    ¬ heapRead (sanitizePodSpecGo exHeap exGoSpec).1 0 = heapRead exHeap 0 := by
  exact ⟨rfl, rfl, by decide⟩

/-- C9: storing a pod below the cap and looking it up immediately
afterwards reports it similar-unschedulable. -/
theorem C9_store_then_lookup_roundtrip :
    ∀ (c : SimilarPodsScheduling) (pod : Pod) (ref : OwnerRef),
      pod.controllerRef = some ref → IsDaemonSetPod pod = false →
      (lookupItems c.items ref.uid).length < maxPodsPerOwnerRef →
      (c.SetUnschedulable pod).IsSimilarUnschedulable pod = true := by
  intro c pod ref href hds hlen
  rw [setUnschedulable_store c pod ref href hds hlen]
  rw [isSimilar_some _ pod ref href]
  show (lookupItems (insertItems c.items ref.uid
      (lookupItems c.items ref.uid ++ [⟨pod.spec, pod.labels⟩])) ref.uid).any
    (fun info => info.Match pod) = true
  rw [lookupItems_insertItems_self]
  rw [List.any_eq_true]
  exact ⟨⟨pod.spec, pod.labels⟩, List.mem_append.mpr (Or.inr (List.mem_singleton.mpr rfl)),
    (match_eq_true_iff _ _).mpr ⟨rfl, rfl⟩⟩

/-- Witness for C9. -/
theorem C9_store_then_lookup_roundtrip_witness :
    (NewSimilarPodsScheduling.SetUnschedulable exPodRS).IsSimilarUnschedulable exPodRS = true :=
  C9_store_then_lookup_roundtrip NewSimilarPodsScheduling exPodRS ⟨"u", "ReplicaSet"⟩ rfl rfl
    (by decide)

/-- C10: marking a controller overflowing is idempotent — once the UID is
in the overflow set a further overflow leaves the count unchanged — and
after any run the overflow set is duplicate-free and holds exactly the
UIDs for which the overflow branch ever fired. -/
theorem C10_overflow_count_idempotent_and_distinct :
    (∀ (c : SimilarPodsScheduling) (pod : Pod) (ref : OwnerRef),
      pod.controllerRef = some ref → IsDaemonSetPod pod = false →
      maxPodsPerOwnerRef ≤ (lookupItems c.items ref.uid).length →
      ref.uid ∈ c.overflowingControllers →
      (c.SetUnschedulable pod).OverflowingControllerCount = c.OverflowingControllerCount) ∧
    (∀ ps : List Pod,
      (runSetUnschedulable ps).overflowingControllers.Nodup ∧
      ∀ u, u ∈ (runSetUnschedulable ps).overflowingControllers ↔
        u ∈ overflowMarks NewSimilarPodsScheduling ps) := by
  constructor
  · intro c pod ref href hds hlen hmem
    rw [setUnschedulable_overflow c pod ref href hds hlen]
    simp [SimilarPodsScheduling.OverflowingControllerCount, insertOverflow, hmem]
  · intro ps
    obtain ⟨hn, hm⟩ := overflow_run ps NewSimilarPodsScheduling List.nodup_nil
    exact ⟨hn, fun u => by simpa [NewSimilarPodsScheduling] using hm u⟩

/-- Witness for C10. -/
theorem C10_overflow_count_idempotent_and_distinct_witness :
    (exCacheOverflowing.SetUnschedulable exPodFresh).OverflowingControllerCount =
      exCacheOverflowing.OverflowingControllerCount ∧
    (runSetUnschedulable [exPodRS]).overflowingControllers.Nodup := by
  constructor
  · exact C10_overflow_count_idempotent_and_distinct.1 exCacheOverflowing exPodFresh
      ⟨"u", "ReplicaSet"⟩ rfl (by decide) (by decide) (by decide)
  · exact (C10_overflow_count_idempotent_and_distinct.2 [exPodRS]).1

end K8sSim
